import Mathlib

/-!
Verification of the pricing, status-mapping and aggregation logic of the
jossyd-stock-snap admin console (TypeScript single-page application).

The embedding below translates the relevant TypeScript functions into Lean:

* `getDiscountedPrice` — `src/lib/api.ts` lines 702–708 (revision with a
  `discount : {type, value}` descriptor on the product);
* `getDiscountedPriceV2` — `src/pages/Sales.tsx` lines 1045–1051 (revision
  with flat `discountType` / `discountValue` / `discountStartAt` /
  `discountEndAt` fields);
* `getNormalizedStatus` — the Orders page helper (`status?.toLowerCase() || 'pending'`);
* `mapBackendStatus` / `toBackendStatus` — the status translation inside
  `ordersApi.getAll` / `ordersApi.updateStatus`;
* `updateStatusMock` — the mock-path of `ordersApi.updateStatus`
  (`src/lib/api.ts` lines 481–504), with the in-place mutation of
  `mockProducts` / `mockOrders` made explicit as state passing;
* `summarize` — the fold inside `reportsApi.getSummary`
  (`src/lib/api.ts` lines 637–673).

JavaScript numbers are modelled as `ℚ` where division occurs (prices,
discounts) and as `ℤ` where only ring operations occur (quantities,
amounts).  `Math.round` is modelled as `roundHalfUp`, since for finite
arguments JavaScript's `Math.round x = ⌊x + 1/2⌋`.  JavaScript's
`toLowerCase()` / `toUpperCase()` (which on the ASCII vocabulary used
here act character by character) are modelled as `jsToLower` / `jsToUpper`.
-/

/-- JavaScript `s.toLowerCase()` on the ASCII status vocabulary:
character-wise lower-casing. -/
def jsToLower (s : String) : String := ⟨s.data.map Char.toLower⟩

/-- JavaScript `s.toUpperCase()` on the ASCII status vocabulary:
character-wise upper-casing. -/
def jsToUpper (s : String) : String := ⟨s.data.map Char.toUpper⟩

/-- JavaScript `Math.round`: round half-up, i.e. `⌊q + 1/2⌋`. -/
def roundHalfUp (q : ℚ) : ℤ := ⌊q + 1/2⌋

/-- Discount type of the `{type: 'percentage'|'fixed', value}` descriptor
(`src/types`, revision used by `src/lib/api.ts`). -/
inductive DiscountType where
  | percentage
  | fixed
deriving DecidableEq, Repr

/-- The discount descriptor attached to a product
(`ProductDiscount` in `src/types`). -/
structure ProductDiscount where
  type : DiscountType
  value : ℚ
deriving DecidableEq, Repr

/-- `Product` as consumed by `src/lib/api.ts` (media list omitted; it is
never read by the functions verified here). -/
structure Product where
  id : String
  name : String
  description : String
  category : String
  costPrice : ℚ
  sellingPrice : ℚ
  quantity : ℤ
  visibleOnWebsite : Bool
  discount : Option ProductDiscount := none
  createdAt : String
  updatedAt : String
deriving DecidableEq, Repr

/-- `getDiscountedPrice` from `src/lib/api.ts` lines 702–708:

```ts
export const getDiscountedPrice = (product: Product): number | null => {
  if (!product.discount) return null;
  if (product.discount.type === 'percentage') {
    return Math.round(product.sellingPrice * (1 - product.discount.value / 100));
  }
  return product.sellingPrice - product.discount.value;
};
``` -/
def getDiscountedPrice (product : Product) : Option ℚ :=
  match product.discount with
  | none => none
  | some d =>
    match d.type with
    | DiscountType.percentage =>
      some ((roundHalfUp (product.sellingPrice * (1 - d.value / 100)) : ℤ) : ℚ)
    | DiscountType.fixed =>
      some (product.sellingPrice - d.value)

/-- `Product` of the later revision (`src/types/index.ts` lines 9–26):
flat discount fields, including the (never consulted) window timestamps.
Timestamps are modelled as epoch milliseconds (`ℤ`), the value
`new Date(iso).getTime()` would produce. -/
structure ProductV2 where
  id : String
  name : String
  description : String
  category : String
  costPrice : ℚ
  sellingPrice : ℚ
  quantity : ℤ
  visibleOnWebsite : Bool
  discountActive : Option Bool := none
  discountType : Option String := none
  discountValue : Option ℚ := none
  discountStartAt : Option ℤ := none
  discountEndAt : Option ℤ := none
  createdAt : String
  updatedAt : String
deriving DecidableEq, Repr

/-- `getDiscountedPrice` from `src/pages/Sales.tsx` lines 1045–1051:

```ts
export const getDiscountedPrice = (product: Product): number | null => {
  if (!product.discountValue) return null;
  if (product.discountType === 'PERCENTAGE') {
    return Math.round(product.sellingPrice * (1 - product.discountValue / 100));
  }
  return product.sellingPrice - product.discountValue;
};
```

`!product.discountValue` is JavaScript truthiness: it rejects both a
missing value and the value `0`. -/
def getDiscountedPriceV2 (product : ProductV2) : Option ℚ :=
  match product.discountValue with
  | none => none
  | some v =>
    if v = 0 then none
    else if product.discountType = some "PERCENTAGE" then
      some ((roundHalfUp (product.sellingPrice * (1 - v / 100)) : ℤ) : ℚ)
    else
      some (product.sellingPrice - v)

/-- The spec's discount-window condition, rendered literally so the gating
claim can be stated: the current time lies outside the inclusive
`[startAt, endAt]` window (an absent bound does not constrain). -/
def outsideDiscountWindow (now : ℤ) (product : ProductV2) : Prop :=
  (∃ s, product.discountStartAt = some s ∧ now < s) ∨
  (∃ e, product.discountEndAt = some e ∧ e < now)

/-- UI order-status vocabulary (`OrderStatus` in `src/types`). -/
inductive OrderStatus where
  | pending
  | paid
  | completed
  | cancelled
deriving DecidableEq, Repr

/-- The Orders-page helper (`getNormalizedStatus`):

```ts
const getNormalizedStatus = (status: string): string => {
  return status?.toLowerCase() || 'pending';
};
```

`status?.toLowerCase()` is `undefined` when `status` is missing, and
`|| 'pending'` replaces both `undefined` and the (falsy) empty string. -/
def getNormalizedStatus (status : Option String) : String :=
  match status with
  | none => "pending"
  | some s => if jsToLower s = "" then "pending" else jsToLower s

/-- The backend→UI status translation used by `ordersApi.getAll`,
`ordersApi.updateStatus` and `ordersApi.getByOrderNumber`
(`src/lib/api.ts` lines 446–459 and elsewhere):

```ts
let frontendStatus: OrderStatus = 'pending';
const backendStatus = order.status?.toUpperCase() || '';
if (backendStatus === 'PENDING_PAYMENT') frontendStatus = 'pending';
else if (backendStatus === 'PAID') frontendStatus = 'paid';
else if (backendStatus === 'COMPLETED') frontendStatus = 'completed';
else if (backendStatus === 'CANCELLED') frontendStatus = 'cancelled';
``` -/
def mapBackendStatus (raw : Option String) : OrderStatus :=
  let backendStatus := match raw with
    | none => ""
    | some s => jsToUpper s
  if backendStatus = "PENDING_PAYMENT" then OrderStatus.pending
  else if backendStatus = "PAID" then OrderStatus.paid
  else if backendStatus = "COMPLETED" then OrderStatus.completed
  else if backendStatus = "CANCELLED" then OrderStatus.cancelled
  else OrderStatus.pending

/-- The UI→backend status translation inside `ordersApi.updateStatus`
(`src/lib/api.ts` lines 506–516):

```ts
let backendStatus = '';
if (status === 'pending') backendStatus = 'PENDING_PAYMENT';
else if (status === 'paid') backendStatus = 'PAID';
else if (status === 'completed') backendStatus = 'COMPLETED';
else if (status === 'cancelled') backendStatus = 'CANCELLED';
``` -/
def toBackendStatus (status : OrderStatus) : String :=
  if status = OrderStatus.pending then "PENDING_PAYMENT"
  else if status = OrderStatus.paid then "PAID"
  else if status = OrderStatus.completed then "COMPLETED"
  else if status = OrderStatus.cancelled then "CANCELLED"
  else ""

/-- A line item of an `Order` (`OrderItem` in `src/types`). -/
structure OrderItem where
  productId : String
  productName : String
  quantity : ℤ
  unitPrice : ℤ
deriving DecidableEq, Repr

/-- `Order` as consumed by the mock path of `ordersApi`. -/
structure Order where
  id : String
  orderNumber : String
  customerName : String
  customerPhone : String
  items : List OrderItem
  totalAmount : ℤ
  source : String
  status : OrderStatus
  createdAt : String
  updatedAt : String
deriving DecidableEq, Repr

/-- The module-level mutable state of `src/lib/api.ts`
(`mockProducts` and `mockOrders`), made explicit. -/
structure MockState where
  products : List Product
  orders : List Order
deriving DecidableEq, Repr

/-- `product.quantity -= item.quantity` applied to the product found by
`mockProducts.find(p => p.id === item.productId)`: decrement the first
product in the list with the given id. -/
def decrementFirst : List Product → String → ℤ → List Product
  | [], _, _ => []
  | p :: ps, pid, q =>
    if p.id = pid then { p with quantity := p.quantity - q } :: ps
    else p :: decrementFirst ps pid q

/-- The inventory-deduction loop of `ordersApi.updateStatus`
(`src/lib/api.ts` lines 491–499):

```ts
for (const item of order.items) {
  const product = mockProducts.find(p => p.id === item.productId);
  if (product) {
    if (product.quantity < item.quantity) {
      throw new Error(`Insufficient stock for ${item.productName}`);
    }
    product.quantity -= item.quantity;
  }
}
```

The products are mutated in place, so when the loop throws, the
decrements applied to earlier items persist; the result therefore pairs
the (possibly thrown) error with the product state at exit. -/
def deductItems : List OrderItem → List Product → Option String × List Product
  | [], ps => (none, ps)
  | item :: rest, ps =>
    match ps.find? (fun p => p.id = item.productId) with
    | none => deductItems rest ps
    | some p =>
      if p.quantity < item.quantity then
        (some ("Insufficient stock for " ++ item.productName), ps)
      else
        deductItems rest (decrementFirst ps item.productId item.quantity)

/-- `mockOrders[index] = newOrder` for the index found by
`mockOrders.findIndex(o => o.id === id)`: replace the first order with
the given id. -/
def replaceFirstOrder : List Order → String → Order → List Order
  | [], _, _ => []
  | o :: os, oid, newO =>
    if o.id = oid then newO :: os
    else o :: replaceFirstOrder os oid newO

/-- The mock path of `ordersApi.updateStatus`
(`src/lib/api.ts` lines 481–504):

```ts
const index = mockOrders.findIndex(o => o.id === id);
if (index === -1) throw new Error('Order not found');
const order = mockOrders[index];
if (status === 'paid' && order.status === 'pending') {
  ... inventory deduction loop (see deductItems) ...
}
mockOrders[index] = { ...order, status, updatedAt: new Date().toISOString() };
return { ...mockOrders[index] };
```

`now` stands for `new Date().toISOString()`.  When the deduction loop
throws, the assignment to `mockOrders[index]` is never reached, so the
order list — and in particular the order's status — is unchanged, while
the partial product decrements persist. -/
def updateStatusMock (st : MockState) (id : String) (status : OrderStatus)
    (now : String) : Except String Order × MockState :=
  match st.orders.find? (fun o => o.id = id) with
  | none => (Except.error "Order not found", st)
  | some order =>
    let step : Option String × List Product :=
      if status = OrderStatus.paid ∧ order.status = OrderStatus.pending then
        deductItems order.items st.products
      else
        (none, st.products)
    match step with
    | (some e, ps) => (Except.error e, { st with products := ps })
    | (none, ps) =>
      let newOrder := { order with status := status, updatedAt := now }
      (Except.ok newOrder,
       { products := ps, orders := replaceFirstOrder st.orders id newOrder })

/-- `Sale` (`src/types`): a completed transaction (single line item in
this revision). -/
structure Sale where
  id : String
  productId : String
  productName : String
  quantity : ℤ
  unitPrice : ℤ
  costPrice : ℤ
  totalAmount : ℤ
  profit : ℤ
  paymentMethod : String
  createdAt : String
deriving DecidableEq, Repr

/-- `ReportSummary` (`src/types`): the result of `reportsApi.getSummary`.
The JavaScript `Record<string, number>` buckets become association
lists in insertion order, matching `Object.entries`. -/
structure ReportSummary where
  period : String
  totalSales : ℤ
  totalProfit : ℤ
  totalTransactions : ℕ
  salesByCategory : List (String × ℤ)
  salesByPayment : List (String × ℤ)
deriving DecidableEq, Repr

/-- `rec[key] = (rec[key] || 0) + amount` on a JavaScript object: add to
the existing entry in place, or append a new key at the end (JavaScript
string-keyed objects preserve insertion order, which `Object.entries`
then reproduces). -/
def bump : List (String × ℤ) → String → ℤ → List (String × ℤ)
  | [], key, amount => [(key, amount)]
  | (k, a) :: rest, key, amount =>
    if k = key then (k, a + amount) :: rest
    else (k, a) :: bump rest key amount

/-- The aggregation pass of `reportsApi.getSummary`
(`src/lib/api.ts` lines 651–668), applied to the already-filtered sales:

```ts
const salesByCategory: Record<string, number> = {};
const salesByPayment: Record<string, number> = {};
filteredSales.forEach(sale => {
  const product = mockProducts.find(p => p.id === sale.productId);
  const cat = product?.category || 'other';
  salesByCategory[cat] = (salesByCategory[cat] || 0) + sale.totalAmount;
  salesByPayment[sale.paymentMethod] = (salesByPayment[sale.paymentMethod] || 0) + sale.totalAmount;
});
return {
  period,
  totalSales: filteredSales.reduce((sum, s) => sum + s.totalAmount, 0),
  totalProfit: filteredSales.reduce((sum, s) => sum + s.profit, 0),
  totalTransactions: filteredSales.length,
  salesByCategory: Object.entries(salesByCategory).map(...),
  salesByPayment: Object.entries(salesByPayment).map(...),
};
``` -/
def summarize (products : List Product) (period : String)
    (filteredSales : List Sale) : ReportSummary :=
  let buckets := filteredSales.foldl
    (fun (acc : List (String × ℤ) × List (String × ℤ)) sale =>
      let cat := match products.find? (fun p => p.id = sale.productId) with
        | some p => if p.category = "" then "other" else p.category
        | none => "other"
      (bump acc.1 cat sale.totalAmount,
       bump acc.2 sale.paymentMethod sale.totalAmount))
    ([], [])
  { period := period
    totalSales := filteredSales.foldl (fun sum s => sum + s.totalAmount) 0
    totalProfit := filteredSales.foldl (fun sum s => sum + s.profit) 0
    totalTransactions := filteredSales.length
    salesByCategory := buckets.1
    salesByPayment := buckets.2 }

/-- The Reports page's render guard for the profit-margin bar
(`Reports` component, `{report.revenue > 0 && ( ... margin bar ... )}`):
the bar is rendered exactly when revenue is positive, so no margin is
shown (and no division is displayed) when revenue is `0`. -/
def showMarginBar (revenue : ℤ) : Bool :=
  decide (revenue > 0)

/-- The `mockProducts` fixture of `src/lib/api.ts` lines 73–84. -/
def mockProducts : List Product :=
  [ { id := "1", name := "Ankara Midi Dress", description := "Beautiful traditional Ankara midi dress", category := "clothes", costPrice := 8000, sellingPrice := 15000, quantity := 12, visibleOnWebsite := true, discount := some { type := DiscountType.percentage, value := 10 }, createdAt := "2026-02-01", updatedAt := "2026-02-05" },
    { id := "2", name := "Designer Stilettos", description := "Elegant designer stiletto heels", category := "shoes", costPrice := 12000, sellingPrice := 22000, quantity := 5, visibleOnWebsite := true, createdAt := "2026-02-01", updatedAt := "2026-02-04" },
    { id := "3", name := "Tom Ford Noir", description := "Premium luxury perfume by Tom Ford", category := "perfumes", costPrice := 25000, sellingPrice := 45000, quantity := 3, visibleOnWebsite := false, createdAt := "2026-02-02", updatedAt := "2026-02-03" },
    { id := "4", name := "Shea Butter Cream", description := "Natural shea butter moisturizing cream", category := "creams", costPrice := 2000, sellingPrice := 4500, quantity := 20, visibleOnWebsite := true, discount := some { type := DiscountType.fixed, value := 500 }, createdAt := "2026-02-01", updatedAt := "2026-02-05" },
    { id := "5", name := "Gold Wrist Watch", description := "Elegant gold-plated wrist watch", category := "watches", costPrice := 15000, sellingPrice := 28000, quantity := 2, visibleOnWebsite := true, createdAt := "2026-02-03", updatedAt := "2026-02-05" },
    { id := "6", name := "Pearl Necklace Set", description := "Stunning pearl necklace jewelry set", category := "jewelry", costPrice := 5000, sellingPrice := 12000, quantity := 8, visibleOnWebsite := true, createdAt := "2026-02-01", updatedAt := "2026-02-04" },
    { id := "7", name := "Lace Blouse", description := "Elegant lace blouse for women", category := "clothes", costPrice := 5000, sellingPrice := 9500, quantity := 15, visibleOnWebsite := false, createdAt := "2026-02-02", updatedAt := "2026-02-05" },
    { id := "8", name := "Sneakers Classic", description := "Classic comfortable sneakers", category := "shoes", costPrice := 8000, sellingPrice := 16000, quantity := 4, visibleOnWebsite := true, createdAt := "2026-02-01", updatedAt := "2026-02-05" },
    { id := "9", name := "Body Mist Spray", description := "Refreshing fragrant body mist spray", category := "perfumes", costPrice := 3500, sellingPrice := 7000, quantity := 10, visibleOnWebsite := true, createdAt := "2026-02-03", updatedAt := "2026-02-05" },
    { id := "10", name := "Silver Ring Set", description := "Beautiful silver ring jewelry set", category := "jewelry", costPrice := 3000, sellingPrice := 7500, quantity := 6, visibleOnWebsite := true, createdAt := "2026-02-02", updatedAt := "2026-02-04" } ]

/-- The three sales of the aggregation scenario — they are exactly
`mockSales[0..2]` of `src/lib/api.ts` lines 87–89 (a 2026-02-06 "daily"
window over the fixture). -/
def scenarioSales : List Sale :=
  [ { id := "s1", productId := "1", productName := "Ankara Midi Dress", quantity := 2, unitPrice := 15000, costPrice := 8000, totalAmount := 30000, profit := 14000, paymentMethod := "cash", createdAt := "2026-02-06T09:30:00" },
    { id := "s2", productId := "3", productName := "Tom Ford Noir", quantity := 1, unitPrice := 45000, costPrice := 25000, totalAmount := 45000, profit := 20000, paymentMethod := "transfer", createdAt := "2026-02-06T10:15:00" },
    { id := "s3", productId := "6", productName := "Pearl Necklace Set", quantity := 1, unitPrice := 12000, costPrice := 5000, totalAmount := 12000, profit := 7000, paymentMethod := "cash", createdAt := "2026-02-06T11:00:00" } ]

/-- A single-product catalogue with the given available quantity
(the C1 scenario product). -/
def stockProduct (qty : ℤ) : Product :=
  { id := "1", name := "Ankara Midi Dress", description := "", category := "clothes",
    costPrice := 8000, sellingPrice := 15000, quantity := qty,
    visibleOnWebsite := true, createdAt := "2026-02-01", updatedAt := "2026-02-05" }

/-- A pending order for five units of product `"1"` (the C1 scenario order). -/
def orderQty5 : Order :=
  { id := "o1", orderNumber := "JDC-0001", customerName := "Ada Okonkwo",
    customerPhone := "08012345678",
    items := [{ productId := "1", productName := "Ankara Midi Dress", quantity := 5, unitPrice := 15000 }],
    totalAmount := 75000, source := "website", status := OrderStatus.pending,
    createdAt := "2026-02-06T08:00:00", updatedAt := "2026-02-06T08:00:00" }

/-- C1 scenario state: the pending five-unit order against available stock `qty`. -/
def scenarioState (qty : ℤ) : MockState :=
  { products := [stockProduct qty], orders := [orderQty5] }

/-- A completed (terminal) order, for the state-machine claim. -/
def completedOrder : Order :=
  { orderQty5 with id := "o3", orderNumber := "JDC-0003", status := OrderStatus.completed }

/-- State holding a single completed order. -/
def terminalState : MockState :=
  { products := [stockProduct 12], orders := [completedOrder] }

/-- A product whose fixed discount exceeds its selling price
(selling price 4500, fixed discount 5000). -/
def overDiscounted : Product :=
  { id := "4", name := "Shea Butter Cream", description := "", category := "creams",
    costPrice := 2000, sellingPrice := 4500, quantity := 20,
    visibleOnWebsite := true,
    discount := some { type := DiscountType.fixed, value := 5000 },
    createdAt := "2026-02-01", updatedAt := "2026-02-05" }

/-- A product whose 10% discount carries a window that has already ended
(`discountEndAt` in the past). -/
def expiredDiscountProduct : ProductV2 :=
  { id := "1", name := "Ankara Midi Dress", description := "", category := "clothes",
    costPrice := 8000, sellingPrice := 15000, quantity := 12,
    visibleOnWebsite := true,
    discountType := some "PERCENTAGE", discountValue := some 10,
    discountStartAt := some 1000, discountEndAt := some 2000,
    createdAt := "2026-02-01", updatedAt := "2026-02-05" }

/-- A pending two-item order whose second item exceeds available stock
(for the non-atomicity claim): product `"1"` has stock 10, product `"2"`
has stock 1, the order wants 2 of each. -/
def twoItemOrder : Order :=
  { id := "o2", orderNumber := "JDC-0002", customerName := "Chika Eze",
    customerPhone := "08098765432",
    items := [ { productId := "1", productName := "Ankara Midi Dress", quantity := 2, unitPrice := 15000 },
               { productId := "2", productName := "Designer Stilettos", quantity := 2, unitPrice := 22000 } ],
    totalAmount := 74000, source := "website", status := OrderStatus.pending,
    createdAt := "2026-02-05T15:30:00", updatedAt := "2026-02-05T15:30:00" }

/-- State for the non-atomicity scenario. -/
def twoItemState : MockState :=
  { products := [stockProduct 10, { stockProduct 1 with id := "2", name := "Designer Stilettos" }],
    orders := [twoItemOrder] }

/-- Claim C5 (confirmed): for every whole-Naira base price `n` and
percentage discount value `v ∈ [0,100]`, `getDiscountedPrice` returns
`round(p * (1 - v/100))` (round half-up), and the result is at most the
base price.  Whole-unit prices match the spec's currency domain (Naira,
zero decimal places). -/
theorem percentage_discount_correct (product : Product) (n : ℕ) (v : ℚ)
    (hp : product.sellingPrice = (n : ℚ))
    (hd : product.discount = some { type := DiscountType.percentage, value := v })
    (h0 : 0 ≤ v) (_h100 : v ≤ 100) :
    getDiscountedPrice product =
      some ((roundHalfUp ((n : ℚ) * (1 - v / 100)) : ℤ) : ℚ) ∧
    ((roundHalfUp ((n : ℚ) * (1 - v / 100)) : ℤ) : ℚ) ≤ (n : ℚ) := by
  constructor
  · simp [getDiscountedPrice, hd, hp]
  · have hx : (n : ℚ) * (1 - v / 100) ≤ (n : ℚ) := by
      have hn : (0 : ℚ) ≤ (n : ℚ) := by positivity
      nlinarith
    have hlt : roundHalfUp ((n : ℚ) * (1 - v / 100)) < (n : ℤ) + 1 := by
      have : (n : ℚ) * (1 - v / 100) + 1 / 2 < ((n : ℤ) + 1 : ℤ) := by
        push_cast
        linarith
      exact Int.floor_lt.mpr this
    have hle : roundHalfUp ((n : ℚ) * (1 - v / 100)) ≤ (n : ℤ) :=
      Int.lt_add_one_iff.mp hlt
    exact_mod_cast hle

/-- Witness for C5: the spec's own scenario — selling price ₦15,000 with
a 10% discount resolves to ₦13,500. -/
theorem percentage_discount_correct_witness :
    getDiscountedPrice
        { id := "1", name := "Ankara Midi Dress",
          description := "Beautiful traditional Ankara midi dress",
          category := "clothes", costPrice := 8000, sellingPrice := 15000,
          quantity := 12, visibleOnWebsite := true,
          discount := some { type := DiscountType.percentage, value := 10 },
          createdAt := "2026-02-01", updatedAt := "2026-02-05" } =
      some ((roundHalfUp (((15000 : ℕ) : ℚ) * (1 - 10 / 100)) : ℤ) : ℚ) ∧
    ((roundHalfUp (((15000 : ℕ) : ℚ) * (1 - 10 / 100)) : ℤ) : ℚ) ≤ ((15000 : ℕ) : ℚ) :=
  percentage_discount_correct _ 15000 10 (by norm_num) rfl (by norm_num) (by norm_num)

/-- Counterexample for C6: a product with selling price 4500 and fixed
discount 5000 resolves to the negative price −500; the resolver does not
floor at 0. -/
theorem fixed_discount_negative :
    getDiscountedPrice overDiscounted = some (-500) ∧ ((-500 : ℚ) < 0) := by
  constructor
  · simp [getDiscountedPrice, overDiscounted]
    norm_num
  · norm_num

/-- Claim C6 (corrected): the fixed-discount branch returns
`sellingPrice - value` with no clamp, so the result is negative whenever
the discount value exceeds the base price. -/
theorem fixed_discount_unclamped (product : Product) (v : ℚ)
    (hd : product.discount = some { type := DiscountType.fixed, value := v }) :
    getDiscountedPrice product = some (product.sellingPrice - v) := by
  simp [getDiscountedPrice, hd]

/-- Witness for C6's amended statement at the over-discounted product. -/
theorem fixed_discount_unclamped_witness :
    getDiscountedPrice overDiscounted = some (overDiscounted.sellingPrice - 5000) :=
  fixed_discount_unclamped overDiscounted 5000 rfl

/-- Counterexample for C3: a product whose 10% discount window ended at
time 2000 still resolves, at time 3000, to the discounted price 13500 —
the resolver never consults `discountStartAt` / `discountEndAt`. -/
theorem discount_window_ignored_cex :
    outsideDiscountWindow 3000 expiredDiscountProduct ∧
    getDiscountedPriceV2 expiredDiscountProduct = some 13500 := by
  constructor
  · exact Or.inr ⟨2000, rfl, by norm_num⟩
  · have h1 : (15000 : ℚ) * (1 - 10 / 100) = 13500 := by norm_num
    have h2 : roundHalfUp 13500 = 13500 := by
      unfold roundHalfUp
      rw [Int.floor_eq_iff]
      norm_num
    simp [getDiscountedPriceV2, expiredDiscountProduct, h1, h2]

/-- Claim C3 (corrected): the discounted-price resolver is oblivious to
the discount window — changing `discountStartAt` / `discountEndAt`
arbitrarily never changes its result. -/
theorem discount_window_ignored (product : ProductV2) (s e : Option ℤ) :
    getDiscountedPriceV2
        { product with discountStartAt := s, discountEndAt := e } =
      getDiscountedPriceV2 product := by
  cases product
  rfl

/-- Counterexample for C4: `getNormalizedStatus` does not default the
unknown value `'BOGUS'` to `'pending'` — it returns `'bogus'`. -/
theorem normalize_bogus_not_pending :
    getNormalizedStatus (some "BOGUS") ≠ "pending" := by
  decide

/-- Claim C4 (corrected): `getNormalizedStatus` lower-cases and defaults
only missing/empty input to `'pending'`; unknown non-empty values pass
through lower-cased.  The backend-status mapping in `ordersApi.getAll`
is the function that defaults unknown values to `pending`. -/
theorem normalize_behaviour :
    getNormalizedStatus none = "pending" ∧
    getNormalizedStatus (some "") = "pending" ∧
    getNormalizedStatus (some "COMPLETED") = "completed" ∧
    getNormalizedStatus (some "BOGUS") = "bogus" ∧
    mapBackendStatus none = OrderStatus.pending ∧
    mapBackendStatus (some "BOGUS") = OrderStatus.pending ∧
    mapBackendStatus (some "COMPLETED") = OrderStatus.completed := by
  decide

/-- Claim C7 (confirmed): mapping a UI status to the backend vocabulary
and back is the identity on all four supported statuses. -/
theorem status_roundtrip (s : OrderStatus) :
    mapBackendStatus (some (toBackendStatus s)) = s := by
  cases s <;> decide

/-- Claim C8 (confirmed): folding the three scenario sales
(₦30,000/₦14,000 cash-clothes, ₦45,000/₦20,000 transfer-perfumes,
₦12,000/₦7,000 cash-jewelry) yields revenue ₦87,000, profit ₦41,000,
three transactions, and payment buckets cash = 42000, transfer = 45000. -/
theorem aggregation_scenario :
    (summarize mockProducts "daily" scenarioSales).totalSales = 87000 ∧
    (summarize mockProducts "daily" scenarioSales).totalProfit = 41000 ∧
    (summarize mockProducts "daily" scenarioSales).totalTransactions = 3 ∧
    (summarize mockProducts "daily" scenarioSales).salesByPayment =
      [("cash", 42000), ("transfer", 45000)] ∧
    (summarize mockProducts "daily" scenarioSales).salesByCategory =
      [("clothes", 30000), ("perfumes", 45000), ("jewelry", 12000)] := by
  decide

/-- Claim C9 (confirmed): aggregating an empty sales list yields zero
revenue, zero profit and zero transactions with empty buckets, and the
Reports page's margin bar is not rendered when revenue is 0 (so no
margin — and in particular no `profit / revenue` division — is ever
displayed for an empty window). -/
theorem empty_aggregation (products : List Product) (period : String) :
    (summarize products period []).totalSales = 0 ∧
    (summarize products period []).totalProfit = 0 ∧
    (summarize products period []).totalTransactions = 0 ∧
    (summarize products period []).salesByCategory = [] ∧
    (summarize products period []).salesByPayment = [] ∧
    showMarginBar 0 = false :=
  ⟨rfl, rfl, rfl, rfl, rfl, rfl⟩

/-- Counterexample for C1: with available stock 3 and an order for five
units, the `pending → completed` transition does not fail — it succeeds,
leaves the stock at 3, and marks the order completed.  No inventory
check or decrement happens on this transition (the code runs it only for
`pending → paid`). -/
theorem pending_to_completed_no_stock_check :
    updateStatusMock (scenarioState 3) "o1" OrderStatus.completed "2026-02-07T00:00:00" =
      (Except.ok { orderQty5 with status := OrderStatus.completed,
                                  updatedAt := "2026-02-07T00:00:00" },
       { products := [stockProduct 3],
         orders := [{ orderQty5 with status := OrderStatus.completed,
                                     updatedAt := "2026-02-07T00:00:00" }] }) := by
  rfl

/-- Claim C1 (corrected): it is the `pending → paid` transition that
settles inventory: with stock 5 it succeeds and the stock becomes 0;
with stock 3 it throws the insufficient-stock error, the stock is
untouched and the order's status remains `pending` (the state is
returned unchanged). -/
theorem paid_transition_stock :
    (updateStatusMock (scenarioState 5) "o1" OrderStatus.paid "t").1 =
      Except.ok { orderQty5 with status := OrderStatus.paid, updatedAt := "t" } ∧
    (updateStatusMock (scenarioState 5) "o1" OrderStatus.paid "t").2.products =
      [stockProduct 0] ∧
    (updateStatusMock (scenarioState 3) "o1" OrderStatus.paid "t").1 =
      Except.error "Insufficient stock for Ankara Midi Dress" ∧
    (updateStatusMock (scenarioState 3) "o1" OrderStatus.paid "t").2 =
      scenarioState 3 := by
  refine ⟨rfl, rfl, rfl, rfl⟩

/-- Counterexample for C2: `updateStatusMock` applies any requested
status unconditionally, so a `completed` (terminal) order is moved back
to `pending` by a subsequent call. -/
theorem terminal_state_left :
    (updateStatusMock terminalState "o3" OrderStatus.pending "t").1 =
      Except.ok { completedOrder with status := OrderStatus.pending, updatedAt := "t" } ∧
    (updateStatusMock terminalState "o3" OrderStatus.pending "t").2.orders =
      [{ completedOrder with status := OrderStatus.pending, updatedAt := "t" }] := by
  refine ⟨rfl, rfl⟩

/-- Claim C2 (corrected): `updateStatus` itself enforces no state
machine — from any terminal (`completed` or `cancelled`) order it
sets whatever status is requested.  (Only the Orders pages restrict
which transitions are offered, by rendering action buttons solely for
`pending` and `paid` orders.) -/
theorem updateStatus_terminal_not_absorbing (st : MockState) (oid : String)
    (s : OrderStatus) (now : String) (o : Order)
    (hfind : st.orders.find? (fun o' => o'.id = oid) = some o)
    (hterm : o.status = OrderStatus.completed ∨ o.status = OrderStatus.cancelled) :
    (updateStatusMock st oid s now).1 =
      Except.ok { o with status := s, updatedAt := now } := by
  have hcond : ¬(s = OrderStatus.paid ∧ o.status = OrderStatus.pending) := by
    rcases hterm with h | h <;> simp [h]
  simp only [updateStatusMock, hfind]
  rw [if_neg hcond]

/-- Witness for C2's amended statement: the completed order of
`terminalState` is sent back to `pending`. -/
theorem updateStatus_terminal_not_absorbing_witness :
    (updateStatusMock terminalState "o3" OrderStatus.cancelled "t").1 =
      Except.ok { completedOrder with status := OrderStatus.cancelled, updatedAt := "t" } :=
  updateStatus_terminal_not_absorbing terminalState "o3" OrderStatus.cancelled "t"
    completedOrder rfl (Or.inl rfl)

/-- Helper for C10: if the deduction loop processes a prefix `pre`
without error, reaching product state `ps'`, and the next item `item`
finds a product with insufficient stock in `ps'`, then running the loop
on the whole item list throws the insufficient-stock error for `item`
and exits with exactly the partially-decremented state `ps'` — the
decrements applied for `pre` are not rolled back. -/
theorem deductItems_stops_at_failure (pre : List OrderItem) (item : OrderItem)
    (post : List OrderItem) (ps ps' : List Product) (p : Product)
    (hpre : deductItems pre ps = (none, ps'))
    (hfind : ps'.find? (fun q => q.id = item.productId) = some p)
    (hshort : p.quantity < item.quantity) :
    deductItems (pre ++ item :: post) ps =
      (some ("Insufficient stock for " ++ item.productName), ps') := by
  induction pre generalizing ps with
  | nil =>
    simp only [deductItems] at hpre
    obtain ⟨-, rfl⟩ := Prod.mk.injEq .. ▸ hpre
    simp only [List.nil_append, deductItems, hfind, if_pos hshort]
  | cons a rest ih =>
    simp only [List.cons_append, deductItems] at hpre ⊢
    cases hfa : ps.find? (fun q => q.id = a.productId) with
    | none =>
      simp only [hfa] at hpre ⊢
      exact ih _ hpre
    | some q =>
      simp only [hfa] at hpre ⊢
      by_cases hq : q.quantity < a.quantity
      · rw [if_pos hq] at hpre
        exact absurd (congrArg Prod.fst hpre) (by simp)
      · rw [if_neg hq] at hpre ⊢
        exact ih _ hpre

/-- Claim C10 (confirmed): when a `pending → paid` transition fails on
some line item with insufficient stock, `updateStatus` throws, the order
list — and hence the order's `pending` status — is unchanged, but the
products state it leaves behind is exactly `ps'`, the state after
decrementing the stock for every line item processed before the failing
one: the inventory change is not rolled back. -/
theorem updateStatus_partial_decrement (st : MockState) (oid now : String)
    (o : Order) (pre : List OrderItem) (item : OrderItem) (post : List OrderItem)
    (ps' : List Product) (p : Product)
    (hfind : st.orders.find? (fun o' => o'.id = oid) = some o)
    (hpend : o.status = OrderStatus.pending)
    (hitems : o.items = pre ++ item :: post)
    (hpre : deductItems pre st.products = (none, ps'))
    (hfp : ps'.find? (fun q => q.id = item.productId) = some p)
    (hshort : p.quantity < item.quantity) :
    updateStatusMock st oid OrderStatus.paid now =
      (Except.error ("Insufficient stock for " ++ item.productName),
       { st with products := ps' }) := by
  have hded := deductItems_stops_at_failure pre item post st.products ps' p hpre hfp hshort
  simp [updateStatusMock, hfind, hpend, hitems, hded]

/-- Witness for C10: a pending order for two dresses (stock 10) and two
stilettos (stock 1) fails on the stilettos, yet the dress stock has
already been decremented from 10 to 8 and the order stays pending. -/
theorem updateStatus_partial_decrement_witness :
    updateStatusMock twoItemState "o2" OrderStatus.paid "t" =
      (Except.error ("Insufficient stock for " ++ "Designer Stilettos"),
       { twoItemState with
           products := [stockProduct 8,
                        { stockProduct 1 with id := "2", name := "Designer Stilettos" }] }) :=
  updateStatus_partial_decrement twoItemState "o2" "t" twoItemOrder
    [{ productId := "1", productName := "Ankara Midi Dress", quantity := 2, unitPrice := 15000 }]
    { productId := "2", productName := "Designer Stilettos", quantity := 2, unitPrice := 22000 }
    []
    [stockProduct 8, { stockProduct 1 with id := "2", name := "Designer Stilettos" }]
    { stockProduct 1 with id := "2", name := "Designer Stilettos" }
    rfl rfl rfl rfl rfl (by decide)
